import Mathlib

/-!
Shallow embedding of the fixed-timestep physics and collision core of
`tennis-pennis` (src/main.rs) and verification of its specification claims.

Modelling conventions:
* `f32` values are modelled by `ℚ` (exact arithmetic; all constants of the
  program are small decimal fractions).
* The Bevy `Vec2`/`Vec3` positions become a record of two rationals (the `z`
  coordinate is never read by the physics core).
* `f32::round` rounds half away from zero; `roundQ` mirrors that.
* The Bevy `sprite::collide_aabb::collide` function returns `Some _` exactly when the two
  center/size axis-aligned rectangles strictly overlap; `collide` below returns
  that `Bool`.
* A Bevy singleton query (`single_mut`, `get_single_mut().unwrap()`) panics
  unless exactly one entity matches; the `_run` wrappers model the panic as
  `none` on a list of matching entities.
* The event writer/reader pair of one tick is modelled by an
  `Option CollisionEvent` handed from the resolver to the response system.
-/

namespace TP

structure Vec2 where
  x : ℚ
  y : ℚ
  deriving DecidableEq

/-- Movement component: `velocity`, `velocity_remainder`, `on_ground`
(src/main.rs lines 14-19). -/
structure Movement where
  velocity : Vec2
  velocity_remainder : Vec2
  on_ground : Bool
  deriving DecidableEq

/-- Jump component (src/main.rs lines 36-40). -/
structure Jump where
  var_jump_timer : ℚ
  var_jump_speed : ℚ
  deriving DecidableEq

/-- A static solid: `Transform.translation` (center) and `Transform.scale`
(full extent) as used by `collision_system`. -/
structure Rect where
  translation : Vec2
  scale : Vec2
  deriving DecidableEq

/-- `SolidCollisionEvent` without the entity id / kind marker, which the
physics itself never inspects (src/main.rs lines 42-48). -/
structure CollisionEvent where
  collided_x : Bool
  collided_y : Bool
  deriving DecidableEq

def TIME_STEP : ℚ := 1 / 60
def VAR_JUMP_TIME : ℚ := 1 / 5
def JUMP_SPEED : ℚ := -105
def MAX_RUN : ℚ := 90
def RUN_ACCEL : ℚ := 1000
def AIR_MULT : ℚ := 13 / 20
def PLAYER_MAX_FALL_SPEED : ℚ := 160
def BALL_MAX_FALL_SPEED : ℚ := 240
def HALF_GRAV_THRESHOLD : ℚ := 40
def PLAYER_MASS : ℚ := 900
def BALL_MASS : ℚ := 1500
def MAX_BALL_BOUNCES : ℤ := 1

/-- `approach` (src/main.rs lines 68-74). -/
def approach (val target max_move : ℚ) : ℚ :=
  if val > target then max target (val - max_move)
  else min target (val + max_move)

/-- `run_velocity_x` (src/main.rs lines 76-83). -/
def run_velocity_x (movement : Movement) (direction : ℚ) : ℚ :=
  let mult : ℚ := if movement.on_ground = true then 1 else AIR_MULT
  approach movement.velocity.x (MAX_RUN * direction) (RUN_ACCEL * mult * TIME_STEP)

/-- The keyboard state sampled by `player_movement_system`: `pressed(Up)`,
`pressed(Left)`, `pressed(Right)`, `just_pressed(Up)`.  The Space/racket keys
have no physics effect and are omitted. -/
structure PlayerInput where
  jump_held : Bool
  left_held : Bool
  right_held : Bool
  jump_just_pressed : Bool
  deriving DecidableEq

/-- `player_movement_system` (src/main.rs lines 85-168), restricted to its
physics outputs (`Movement`, `Jump`); sprite orientation and animation index
bookkeeping are presentation state and are not modelled.  The statements are
translated in program order: gravity, variable-jump window, horizontal run,
then jump initiation (`velocity.y -= JUMP_SPEED`, literally as written). -/
def player_movement_system (inp : PlayerInput) (mov : Movement) (jump : Jump) :
    Movement × Jump :=
  let mult : ℚ :=
    if |mov.velocity.y| < HALF_GRAV_THRESHOLD ∧ inp.jump_held = true then 1 / 2 else 1
  let vyGrav := approach mov.velocity.y PLAYER_MAX_FALL_SPEED (PLAYER_MASS * mult * TIME_STEP)
  let vj : ℚ × ℚ :=
    if jump.var_jump_timer > 0 then
      if inp.jump_held = true then
        (min jump.var_jump_speed vyGrav, jump.var_jump_timer - TIME_STEP)
      else (vyGrav, 0)
    else (vyGrav, jump.var_jump_timer)
  let movMid : Movement := { mov with velocity := ⟨mov.velocity.x, vj.1⟩ }
  let vx : ℚ :=
    if inp.left_held = true then run_velocity_x movMid (-1)
    else if inp.right_held = true then run_velocity_x movMid 1
    else run_velocity_x movMid 0
  let initJump : ℚ × ℚ × ℚ :=
    if inp.jump_just_pressed = true ∧ mov.on_ground = true then
      (vj.1 - JUMP_SPEED, VAR_JUMP_TIME, JUMP_SPEED)
    else (vj.1, vj.2, jump.var_jump_speed)
  ({ velocity := ⟨vx, initJump.1⟩
     velocity_remainder := mov.velocity_remainder
     on_ground := mov.on_ground },
   { var_jump_timer := initJump.2.1, var_jump_speed := initJump.2.2 })

/-- `ball_movement_system` body for the single ball (src/main.rs lines 172-178). -/
def ball_movement_system (mov : Movement) : Movement :=
  if mov.on_ground = false then
    { mov with
      velocity := ⟨mov.velocity.x,
                   approach mov.velocity.y BALL_MAX_FALL_SPEED (BALL_MASS * TIME_STEP)⟩ }
  else mov

/-- Singleton query of `ball_movement_system`: `query.get_single_mut().unwrap()`
panics (modelled `none`) unless exactly one `Movement` matches
(src/main.rs lines 170-171). -/
def ball_movement_system_run (q : List Movement) : Option (List Movement) :=
  match q with
  | [m] => some [ball_movement_system m]
  | _ => none

/-- `sign` (src/main.rs lines 196-202). -/
def signI (number : ℤ) : ℤ :=
  if number < 0 then -1 else if 0 < number then 1 else 0

/-- `f32::round` on the modelled rationals: round half away from zero. -/
def roundQ (q : ℚ) : ℤ :=
  if 0 ≤ q then ⌊q + 1 / 2⌋ else ⌈q - 1 / 2⌉

/-- Bevy 0.11 `sprite::collide_aabb::collide` as used on line 227/257:
`a` is the solid (center `a_pos`, full size `a_size`), `b` the moving entity;
`Some _` is returned exactly on strict overlap of the two AABBs. -/
def collide (a_pos a_size b_pos b_size : Vec2) : Bool :=
  decide (a_pos.x - a_size.x / 2 < b_pos.x + b_size.x / 2) &&
  decide (a_pos.x + a_size.x / 2 > b_pos.x - b_size.x / 2) &&
  decide (a_pos.y - a_size.y / 2 < b_pos.y + b_size.y / 2) &&
  decide (a_pos.y + a_size.y / 2 > b_pos.y - b_size.y / 2)

/-- The inner `for solid_transform in &solid_query` loop: does the entity
rectangle at `pos` overlap any solid? -/
def anyCollide (solids : List Rect) (pos size : Vec2) : Bool :=
  solids.any fun s => collide s.translation s.scale pos size

/-- One axis result of the unit-stepping loop. -/
structure StepOut where
  pos : Vec2
  collided : Bool
  deriving DecidableEq

/-- The X-axis `while move_x != 0 && !collided_x` loop (src/main.rs lines
223-243), with the remaining step count as fuel; the candidate position is
`translation + (move_sign, 0)`. -/
def stepX (solids : List Rect) (size : Vec2) (sgn : ℤ) : Nat → Vec2 → StepOut
  | 0, pos => ⟨pos, false⟩
  | Nat.succ n, pos =>
    let newPos : Vec2 := ⟨pos.x + (sgn : ℚ), pos.y⟩
    if anyCollide solids newPos size = true then ⟨pos, true⟩
    else stepX solids size sgn n newPos

/-- The Y-axis `while move_y != 0 && !collided_y` loop (src/main.rs lines
252-273); the candidate position is `translation - (0, move_sign)`. -/
def stepY (solids : List Rect) (size : Vec2) (sgn : ℤ) : Nat → Vec2 → StepOut
  | 0, pos => ⟨pos, false⟩
  | Nat.succ n, pos =>
    let newPos : Vec2 := ⟨pos.x, pos.y - (sgn : ℚ)⟩
    if anyCollide solids newPos size = true then ⟨pos, true⟩
    else stepY solids size sgn n newPos

/-- Result of one axis pass: new position, new remainder on that axis,
collided flag. -/
structure AxisOut where
  pos : Vec2
  rem : ℚ
  collided : Bool
  deriving DecidableEq

/-- Result of the Y pass, which additionally carries the `on_ground` update. -/
structure YOut where
  pos : Vec2
  rem : ℚ
  collided : Bool
  on_ground : Bool
  deriving DecidableEq

/-- X-axis block of `collision_system` (src/main.rs lines 217-244): round the
remainder, and when nonzero subtract the integer part back out and walk unit
steps until blocked or exhausted. -/
def xPass (solids : List Rect) (size pos : Vec2) (rx : ℚ) : AxisOut :=
  let move_x := roundQ rx
  if move_x = 0 then ⟨pos, rx, false⟩
  else
    let r := stepX solids size (signI move_x) move_x.natAbs pos
    ⟨r.pos, rx - (move_x : ℚ), r.collided⟩

/-- Y-axis block of `collision_system` (src/main.rs lines 246-276), including
the `on_ground = collided_y` assignment which the source performs only inside
the `move_y != 0` branch. -/
def yPass (solids : List Rect) (size pos : Vec2) (ry : ℚ) (og : Bool) : YOut :=
  let move_y := roundQ ry
  if move_y = 0 then ⟨pos, ry, false, og⟩
  else
    let r := stepY solids size (signI move_y) move_y.natAbs pos
    ⟨r.pos, ry - (move_y : ℚ), r.collided, r.collided⟩

/-- The per-tick remainder on X after the `velocity_remainder += velocity *
TIME_STEP` accumulation (src/main.rs lines 214-215). -/
def remX0 (mov : Movement) : ℚ := mov.velocity_remainder.x + mov.velocity.x * TIME_STEP

/-- The per-tick remainder on Y after accumulation. -/
def remY0 (mov : Movement) : ℚ := mov.velocity_remainder.y + mov.velocity.y * TIME_STEP

/-- Full resolver output: final translation, final `Movement`, and the emitted
event (if either axis collided). -/
structure ResolveOut where
  pos : Vec2
  mov : Movement
  ev : Option CollisionEvent
  deriving DecidableEq

/-- Body of the generic `collision_system::<T>` (src/main.rs lines 204-286)
for the single moving entity of kind `T`: accumulate the remainder, run the X
pass from the current translation, the Y pass from its result, rebuild the
`Movement`, and emit an event when either axis collided.  The resolver never
writes `velocity`. -/
def collision_system (solids : List Rect) (pos : Vec2) (mov : Movement) (size : Vec2) :
    ResolveOut :=
  let xr := xPass solids size pos (remX0 mov)
  let yr := yPass solids size xr.pos (remY0 mov) mov.on_ground
  { pos := yr.pos
    mov :=
      { velocity := mov.velocity
        velocity_remainder := ⟨xr.rem, yr.rem⟩
        on_ground := yr.on_ground }
    ev :=
      if xr.collided || yr.collided then
        some ⟨xr.collided, yr.collided⟩
      else none }

/-- A moving entity as matched by the query of the resolver: translation,
`Movement`, `Size`. -/
structure EntityState where
  pos : Vec2
  mov : Movement
  size : Vec2
  deriving DecidableEq

/-- Singleton query of `collision_system`: `entity_query.single_mut()` panics
(modelled `none`) unless exactly one entity of the kind matches
(src/main.rs lines 212-213). -/
def collision_system_run (solids : List Rect) (q : List EntityState) :
    Option ResolveOut :=
  match q with
  | [e] => some (collision_system solids e.pos e.mov e.size)
  | _ => none

/-- `player_collision_response_system` body for one event
(src/main.rs lines 292-300). -/
def player_collision_response (ev : CollisionEvent) (mov : Movement) : Movement :=
  let mov1 :=
    if ev.collided_x = true then { mov with velocity := ⟨0, mov.velocity.y⟩ } else mov
  if ev.collided_y = true then { mov1 with velocity := ⟨mov1.velocity.x, 0⟩ } else mov1

/-- `ball_collision_response_system` body for one event
(src/main.rs lines 307-322).  `-1.5 = -3/2`; the bounce counter is `i8`,
modelled by `ℤ` (its reachable values are `0` and `1`). -/
def ball_collision_response (ev : CollisionEvent) (mov : Movement) (bounces : ℤ) :
    Movement × ℤ :=
  let mov1 :=
    if ev.collided_x = true then
      { mov with velocity := ⟨mov.velocity.x * (-3 / 2), mov.velocity.y⟩ }
    else mov
  if ev.collided_y = true then
    if bounces ≥ MAX_BALL_BOUNCES then
      ({ mov1 with velocity := ⟨mov1.velocity.x, 0⟩, on_ground := true }, 0)
    else
      ({ mov1 with velocity := ⟨mov1.velocity.x, mov1.velocity.y * (-3 / 2)⟩ }, bounces + 1)
  else (mov1, bounces)

/-- The response system sees the events of this tick: either the one event the
resolver emitted, or nothing. -/
def ball_collision_response_system (ev : Option CollisionEvent) (mov : Movement)
    (bounces : ℤ) : Movement × ℤ :=
  match ev with
  | some e => ball_collision_response e mov bounces
  | none => (mov, bounces)

/-- The Y-collided flag the response systems read off the events of the tick
(`false` when no event was emitted). -/
def evCollidedY : Option CollisionEvent → Bool
  | some e => e.collided_y
  | none => false

/-- The X-collided flag the response systems read off the events of the tick. -/
def evCollidedX : Option CollisionEvent → Bool
  | some e => e.collided_x
  | none => false

/-- The full per-tick state of the ball. -/
structure BallState where
  pos : Vec2
  mov : Movement
  bounces : ℤ
  deriving DecidableEq

/-- One fixed tick of the ball track, in the schedule order of `main`
(src/main.rs lines 502-504): `ball_movement_system`, then
`collision_system::<Ball>`, then `ball_collision_response_system`. -/
def ballTick (solids : List Rect) (size : Vec2) (s : BallState) : BallState :=
  let mov1 := ball_movement_system s.mov
  let r := collision_system solids s.pos mov1 size
  let resp := ball_collision_response_system r.ev r.mov s.bounces
  ⟨r.pos, resp.1, resp.2⟩

/-! ### Arithmetic facts about `roundQ` -/

theorem roundQ_eq_zero (q : ℚ) (h : |q| < 1 / 2) : roundQ q = 0 := by
  rw [abs_lt] at h
  unfold roundQ
  split
  · rw [Int.floor_eq_zero_iff, Set.mem_Ico]
    constructor <;> linarith [h.1, h.2]
  · rw [Int.ceil_eq_zero_iff, Set.mem_Ioc]
    constructor <;> linarith [h.1, h.2]

theorem abs_lt_half_of_roundQ (q : ℚ) (h : roundQ q = 0) : |q| < 1 / 2 := by
  rw [abs_lt]
  unfold roundQ at h
  split at h
  · rw [Int.floor_eq_zero_iff, Set.mem_Ico] at h
    constructor <;> linarith [h.1, h.2]
  · rw [Int.ceil_eq_zero_iff, Set.mem_Ioc] at h
    constructor <;> linarith [h.1, h.2]

theorem abs_sub_roundQ_le (q : ℚ) : |q - (roundQ q : ℚ)| ≤ 1 / 2 := by
  rw [abs_le]
  unfold roundQ
  split
  · have h1 := Int.floor_le (q + 1 / 2)
    have h2 := Int.lt_floor_add_one (q + 1 / 2)
    constructor <;> linarith
  · have h1 := Int.le_ceil (q - 1 / 2)
    have h2 := Int.ceil_lt_add_one (q - 1 / 2)
    constructor <;> linarith

/-! ### Facts about the unit-stepping loops -/

theorem stepX_pos_y (solids : List Rect) (size : Vec2) (sgn : ℤ) :
    ∀ (n : Nat) (pos : Vec2), (stepX solids size sgn n pos).pos.y = pos.y := by
  intro n
  induction n with
  | zero => intro pos; rfl
  | succ n ih =>
    intro pos
    rw [stepX]
    split
    · rfl
    · exact ih _

theorem stepY_pos_x (solids : List Rect) (size : Vec2) (sgn : ℤ) :
    ∀ (n : Nat) (pos : Vec2), (stepY solids size sgn n pos).pos.x = pos.x := by
  intro n
  induction n with
  | zero => intro pos; rfl
  | succ n ih =>
    intro pos
    rw [stepY]
    split
    · rfl
    · exact ih _

theorem stepX_blocked (solids : List Rect) (size : Vec2) (sgn : ℤ) (n : Nat) (pos : Vec2)
    (h : anyCollide solids ⟨pos.x + (sgn : ℚ), pos.y⟩ size = true) :
    stepX solids size sgn (n + 1) pos = ⟨pos, true⟩ := by
  rw [stepX, if_pos h]

theorem stepY_blocked (solids : List Rect) (size : Vec2) (sgn : ℤ) (n : Nat) (pos : Vec2)
    (h : anyCollide solids ⟨pos.x, pos.y - (sgn : ℚ)⟩ size = true) :
    stepY solids size sgn (n + 1) pos = ⟨pos, true⟩ := by
  rw [stepY, if_pos h]

theorem stepX_no_overlap (solids : List Rect) (size : Vec2) (sgn : ℤ) :
    ∀ (n : Nat) (pos : Vec2), anyCollide solids pos size = false →
      anyCollide solids (stepX solids size sgn n pos).pos size = false := by
  intro n
  induction n with
  | zero => intro pos h; exact h
  | succ n ih =>
    intro pos h
    rw [stepX]
    split
    · exact h
    · rename_i hc
      exact ih _ (by simpa using hc)

theorem stepY_no_overlap (solids : List Rect) (size : Vec2) (sgn : ℤ) :
    ∀ (n : Nat) (pos : Vec2), anyCollide solids pos size = false →
      anyCollide solids (stepY solids size sgn n pos).pos size = false := by
  intro n
  induction n with
  | zero => intro pos h; exact h
  | succ n ih =>
    intro pos h
    rw [stepY]
    split
    · exact h
    · rename_i hc
      exact ih _ (by simpa using hc)

/-! ### Facts about the axis passes -/

theorem xPass_rem_abs (solids : List Rect) (size pos : Vec2) (rx : ℚ) :
    |(xPass solids size pos rx).rem| ≤ 1 / 2 := by
  simp only [xPass]
  split
  · rename_i h
    exact le_of_lt (abs_lt_half_of_roundQ rx h)
  · exact abs_sub_roundQ_le rx

theorem yPass_rem_abs (solids : List Rect) (size pos : Vec2) (ry : ℚ) (og : Bool) :
    |(yPass solids size pos ry og).rem| ≤ 1 / 2 := by
  simp only [yPass]
  split
  · rename_i h
    exact le_of_lt (abs_lt_half_of_roundQ ry h)
  · exact abs_sub_roundQ_le ry

theorem xPass_pos_y (solids : List Rect) (size pos : Vec2) (rx : ℚ) :
    (xPass solids size pos rx).pos.y = pos.y := by
  simp only [xPass]
  split
  · rfl
  · exact stepX_pos_y solids size _ _ pos

theorem yPass_pos_x (solids : List Rect) (size pos : Vec2) (ry : ℚ) (og : Bool) :
    (yPass solids size pos ry og).pos.x = pos.x := by
  simp only [yPass]
  split
  · rfl
  · exact stepY_pos_x solids size _ _ pos

theorem xPass_no_overlap (solids : List Rect) (size pos : Vec2) (rx : ℚ)
    (h : anyCollide solids pos size = false) :
    anyCollide solids (xPass solids size pos rx).pos size = false := by
  simp only [xPass]
  split
  · exact h
  · exact stepX_no_overlap solids size _ _ pos h

theorem yPass_no_overlap (solids : List Rect) (size pos : Vec2) (ry : ℚ) (og : Bool)
    (h : anyCollide solids pos size = false) :
    anyCollide solids (yPass solids size pos ry og).pos size = false := by
  simp only [yPass]
  split
  · exact h
  · exact stepY_no_overlap solids size _ _ pos h

theorem yPass_on_ground (solids : List Rect) (size pos : Vec2) (ry : ℚ) (og : Bool) :
    (roundQ ry ≠ 0 →
      (yPass solids size pos ry og).on_ground = (yPass solids size pos ry og).collided) ∧
    (roundQ ry = 0 →
      (yPass solids size pos ry og).on_ground = og ∧
      (yPass solids size pos ry og).collided = false) := by
  constructor
  · intro h
    simp only [yPass]
    rw [if_neg h]
  · intro h
    simp only [yPass]
    rw [if_pos h]
    exact ⟨rfl, rfl⟩

/-! ### Facts about the assembled resolver -/

theorem collision_system_velocity (solids : List Rect) (pos : Vec2) (mov : Movement)
    (size : Vec2) :
    (collision_system solids pos mov size).mov.velocity = mov.velocity := rfl

theorem collision_system_on_ground (solids : List Rect) (pos : Vec2) (mov : Movement)
    (size : Vec2) :
    (collision_system solids pos mov size).mov.on_ground =
      (yPass solids size (xPass solids size pos (remX0 mov)).pos (remY0 mov)
        mov.on_ground).on_ground := rfl

theorem evCollidedY_eq (solids : List Rect) (pos : Vec2) (mov : Movement) (size : Vec2) :
    evCollidedY (collision_system solids pos mov size).ev =
      (yPass solids size (xPass solids size pos (remX0 mov)).pos (remY0 mov)
        mov.on_ground).collided := by
  cases hx : (xPass solids size pos (remX0 mov)).collided <;>
    cases hy : (yPass solids size (xPass solids size pos (remX0 mov)).pos (remY0 mov)
        mov.on_ground).collided <;>
      simp [collision_system, evCollidedY, hx, hy]

theorem evCollidedX_eq (solids : List Rect) (pos : Vec2) (mov : Movement) (size : Vec2) :
    evCollidedX (collision_system solids pos mov size).ev =
      (xPass solids size pos (remX0 mov)).collided := by
  cases hx : (xPass solids size pos (remX0 mov)).collided <;>
    cases hy : (yPass solids size (xPass solids size pos (remX0 mov)).pos (remY0 mov)
        mov.on_ground).collided <;>
      simp [collision_system, evCollidedX, hx, hy]

theorem on_ground_of_evCollidedY (solids : List Rect) (pos : Vec2) (mov : Movement)
    (size : Vec2) (h : evCollidedY (collision_system solids pos mov size).ev = true) :
    (collision_system solids pos mov size).mov.on_ground = true := by
  rw [evCollidedY_eq] at h
  rw [collision_system_on_ground]
  by_cases h0 : roundQ (remY0 mov) = 0
  · have hz := (yPass_on_ground solids size (xPass solids size pos (remX0 mov)).pos
      (remY0 mov) mov.on_ground).2 h0
    rw [hz.2] at h
    exact absurd h (by simp)
  · rw [(yPass_on_ground solids size (xPass solids size pos (remX0 mov)).pos
      (remY0 mov) mov.on_ground).1 h0, h]

/-! ### Claim theorems -/

/-- C1: the claim states that on the rising edge of the jump key while grounded
the integrator sets `velocity.y` to `JUMP_SPEED = -105` and arms
`var_jump_timer = VAR_JUMP_TIME`, `var_jump_speed = JUMP_SPEED`.  The source
(line 151) instead executes `movement.velocity.y -= JUMP_SPEED`, which adds
`+105` (downward) to the gravity-updated velocity.  At the concrete grounded
rest state with the jump key just pressed, the code yields
`velocity.y = 7.5 + 105 = 225/2 ≠ JUMP_SPEED`, while the timer/speed arming
behaves as claimed. -/
theorem spec_c1 :
    (player_movement_system ⟨true, false, false, true⟩
        ⟨⟨0, 0⟩, ⟨0, 0⟩, true⟩ ⟨0, 0⟩).1.velocity.y = 225 / 2 ∧
    ¬((player_movement_system ⟨true, false, false, true⟩
        ⟨⟨0, 0⟩, ⟨0, 0⟩, true⟩ ⟨0, 0⟩).1.velocity.y = JUMP_SPEED) ∧
    (player_movement_system ⟨true, false, false, true⟩
        ⟨⟨0, 0⟩, ⟨0, 0⟩, true⟩ ⟨0, 0⟩).2.var_jump_timer = VAR_JUMP_TIME ∧
    (player_movement_system ⟨true, false, false, true⟩
        ⟨⟨0, 0⟩, ⟨0, 0⟩, true⟩ ⟨0, 0⟩).2.var_jump_speed = JUMP_SPEED := by
  norm_num [player_movement_system, approach, run_velocity_x, HALF_GRAV_THRESHOLD,
    PLAYER_MASS, TIME_STEP, PLAYER_MAX_FALL_SPEED, JUMP_SPEED, VAR_JUMP_TIME, MAX_RUN,
    RUN_ACCEL]

/-- C2 counterexample: an invocation of the resolver with zero velocity and
zero remainder on an entity already flagged grounded performs no Y collision
(no event, so the Y-collided outcome of the tick is `false`) yet leaves `on_ground`
`true`, refuting the claim that after every invocation `on_ground` equals
whether the Y axis collided during that invocation. -/
theorem spec_c2_counterexample :
    ¬((collision_system [] ⟨0, 0⟩ ⟨⟨0, 0⟩, ⟨0, 0⟩, true⟩ ⟨16, 16⟩).mov.on_ground =
      evCollidedY (collision_system [] ⟨0, 0⟩ ⟨⟨0, 0⟩, ⟨0, 0⟩, true⟩ ⟨16, 16⟩).ev) := by
  norm_num [collision_system, xPass, yPass, remX0, remY0, roundQ, stepX, stepY,
    anyCollide, collide, signI, TIME_STEP, evCollidedY]

/-- C2 amended: when the rounded Y step count is nonzero, the resolver sets
`on_ground` to exactly the Y-collided outcome of this invocation (the X pass
never affects it); when the rounded Y step count is zero, `on_ground` is left
unchanged and no Y collision is reported. -/
theorem spec_c2 (solids : List Rect) (pos : Vec2) (mov : Movement) (size : Vec2) :
    (roundQ (remY0 mov) ≠ 0 →
      (collision_system solids pos mov size).mov.on_ground =
        evCollidedY (collision_system solids pos mov size).ev) ∧
    (roundQ (remY0 mov) = 0 →
      (collision_system solids pos mov size).mov.on_ground = mov.on_ground ∧
      evCollidedY (collision_system solids pos mov size).ev = false) := by
  have hy := yPass_on_ground solids size (xPass solids size pos (remX0 mov)).pos
    (remY0 mov) mov.on_ground
  constructor
  · intro h
    rw [collision_system_on_ground, evCollidedY_eq, hy.1 h]
  · intro h
    rw [collision_system_on_ground, evCollidedY_eq]
    exact ⟨(hy.2 h).1, (hy.2 h).2⟩

/-- C2 witness: with velocity `(0, 60)` and zero remainder the rounded Y step
count is `1 ≠ 0`, and the amended theorem applies: the post-state `on_ground`
equals the Y-collided outcome of the invocation. -/
theorem spec_c2_witness :
    (collision_system [] ⟨0, 0⟩ ⟨⟨0, 60⟩, ⟨0, 0⟩, true⟩ ⟨16, 16⟩).mov.on_ground =
      evCollidedY (collision_system [] ⟨0, 0⟩ ⟨⟨0, 60⟩, ⟨0, 0⟩, true⟩ ⟨16, 16⟩).ev :=
  (spec_c2 [] ⟨0, 0⟩ ⟨⟨0, 60⟩, ⟨0, 0⟩, true⟩ ⟨16, 16⟩).1
    (by norm_num [remY0, roundQ, TIME_STEP])

/-- C3 counterexample: the claimed scenario (ball falls at `velocity.y = +50`
onto the ground solid, bounce counter `0`, `MAX_BALL_BOUNCES = 1`).  After the
resolver (which sets `on_ground := collided_y = true` on line 275) and the
bounce branch of the response (which never writes `on_ground`), the state is
`velocity.y = -75`, counter `1`, but `on_ground = true`, refuting the claimed
`on_ground = false`. -/
theorem spec_c3_counterexample :
    (ball_collision_response_system
        (collision_system [⟨⟨0, -9⟩, ⟨100, 16⟩⟩] ⟨0, 0⟩
          ⟨⟨0, 50⟩, ⟨0, 0⟩, false⟩ ⟨16, 16⟩).ev
        (collision_system [⟨⟨0, -9⟩, ⟨100, 16⟩⟩] ⟨0, 0⟩
          ⟨⟨0, 50⟩, ⟨0, 0⟩, false⟩ ⟨16, 16⟩).mov 0).1.velocity.y = -75 ∧
    (ball_collision_response_system
        (collision_system [⟨⟨0, -9⟩, ⟨100, 16⟩⟩] ⟨0, 0⟩
          ⟨⟨0, 50⟩, ⟨0, 0⟩, false⟩ ⟨16, 16⟩).ev
        (collision_system [⟨⟨0, -9⟩, ⟨100, 16⟩⟩] ⟨0, 0⟩
          ⟨⟨0, 50⟩, ⟨0, 0⟩, false⟩ ⟨16, 16⟩).mov 0).2 = 1 ∧
    ¬((ball_collision_response_system
        (collision_system [⟨⟨0, -9⟩, ⟨100, 16⟩⟩] ⟨0, 0⟩
          ⟨⟨0, 50⟩, ⟨0, 0⟩, false⟩ ⟨16, 16⟩).ev
        (collision_system [⟨⟨0, -9⟩, ⟨100, 16⟩⟩] ⟨0, 0⟩
          ⟨⟨0, 50⟩, ⟨0, 0⟩, false⟩ ⟨16, 16⟩).mov 0).1.on_ground = false) := by
  norm_num [collision_system, xPass, yPass, remX0, remY0, roundQ, stepX, stepY,
    anyCollide, collide, signI, TIME_STEP, evCollidedY, ball_collision_response_system, ball_collision_response,
    MAX_BALL_BOUNCES]

/-- C3 amended: for the ball with bounce counter `0` and
`MAX_BALL_BOUNCES = 1`, whenever the resolver reports a Y collision while the
incoming `velocity.y = +50`, the post-response state has `velocity.y = -75`
(reversed, restitution `1.5`) and bounce counter `1`, while `on_ground` is
`true`: the resolver set it on the Y collision and the bounce branch of the
response leaves it unchanged. -/
theorem spec_c3 (solids : List Rect) (pos size : Vec2) (mov : Movement)
    (hvy : mov.velocity.y = 50)
    (hcy : evCollidedY (collision_system solids pos mov size).ev = true) :
    (ball_collision_response_system (collision_system solids pos mov size).ev
        (collision_system solids pos mov size).mov 0).1.velocity.y = -75 ∧
    (ball_collision_response_system (collision_system solids pos mov size).ev
        (collision_system solids pos mov size).mov 0).2 = 1 ∧
    (ball_collision_response_system (collision_system solids pos mov size).ev
        (collision_system solids pos mov size).mov 0).1.on_ground = true := by
  obtain ⟨e, he⟩ : ∃ e, (collision_system solids pos mov size).ev = some e := by
    cases hev : (collision_system solids pos mov size).ev
    · rw [hev] at hcy
      exact absurd hcy (by simp [evCollidedY])
    · exact ⟨_, rfl⟩
  have hog := on_ground_of_evCollidedY solids pos mov size hcy
  have hv : (collision_system solids pos mov size).mov.velocity.y = 50 := by
    rw [collision_system_velocity]
    exact hvy
  rw [he] at hcy ⊢
  obtain ⟨cx, cy⟩ := e
  have hey : cy = true := by simpa [evCollidedY] using hcy
  subst hey
  cases cx <;>
    simp [ball_collision_response_system, ball_collision_response,
      MAX_BALL_BOUNCES, hv, hog] <;>
    norm_num

/-- C3 amended-claim witness: the concrete scenario of the counterexample
(ball at the origin falling at `+50` onto the ground solid) satisfies both
hypotheses, and the amended conclusions hold there. -/
theorem spec_c3_witness :
    (ball_collision_response_system
        (collision_system [⟨⟨0, -9⟩, ⟨100, 16⟩⟩] ⟨0, 0⟩
          ⟨⟨0, 50⟩, ⟨0, 0⟩, false⟩ ⟨16, 16⟩).ev
        (collision_system [⟨⟨0, -9⟩, ⟨100, 16⟩⟩] ⟨0, 0⟩
          ⟨⟨0, 50⟩, ⟨0, 0⟩, false⟩ ⟨16, 16⟩).mov 0).1.velocity.y = -75 ∧
    (ball_collision_response_system
        (collision_system [⟨⟨0, -9⟩, ⟨100, 16⟩⟩] ⟨0, 0⟩
          ⟨⟨0, 50⟩, ⟨0, 0⟩, false⟩ ⟨16, 16⟩).ev
        (collision_system [⟨⟨0, -9⟩, ⟨100, 16⟩⟩] ⟨0, 0⟩
          ⟨⟨0, 50⟩, ⟨0, 0⟩, false⟩ ⟨16, 16⟩).mov 0).2 = 1 ∧
    (ball_collision_response_system
        (collision_system [⟨⟨0, -9⟩, ⟨100, 16⟩⟩] ⟨0, 0⟩
          ⟨⟨0, 50⟩, ⟨0, 0⟩, false⟩ ⟨16, 16⟩).ev
        (collision_system [⟨⟨0, -9⟩, ⟨100, 16⟩⟩] ⟨0, 0⟩
          ⟨⟨0, 50⟩, ⟨0, 0⟩, false⟩ ⟨16, 16⟩).mov 0).1.on_ground = true :=
  spec_c3 [⟨⟨0, -9⟩, ⟨100, 16⟩⟩] ⟨0, 0⟩ ⟨16, 16⟩ ⟨⟨0, 50⟩, ⟨0, 0⟩, false⟩
    rfl (by norm_num [collision_system, xPass, yPass, remX0, remY0, roundQ, stepX, stepY,
    anyCollide, collide, signI, TIME_STEP, evCollidedY])

/-- C4: on a Y-collision event with the bounce counter at or above
`MAX_BALL_BOUNCES`, the ball response zeroes `velocity.y`, sets `on_ground`,
and resets the counter to `0`, for any incoming state and either value of the
X flag. -/
theorem spec_c4 (mov : Movement) (b : ℤ) (cx : Bool) (hb : MAX_BALL_BOUNCES ≤ b) :
    (ball_collision_response ⟨cx, true⟩ mov b).1.velocity.y = 0 ∧
    (ball_collision_response ⟨cx, true⟩ mov b).1.on_ground = true ∧
    (ball_collision_response ⟨cx, true⟩ mov b).2 = 0 := by
  cases cx <;> simp [ball_collision_response, ge_iff_le, hb]

/-- C4 witness: counter `1 = MAX_BALL_BOUNCES`, incoming `velocity.y = 50`,
no X collision: landing occurs. -/
theorem spec_c4_witness :
    (ball_collision_response ⟨false, true⟩ ⟨⟨0, 50⟩, ⟨0, 0⟩, false⟩ 1).1.velocity.y = 0 ∧
    (ball_collision_response ⟨false, true⟩ ⟨⟨0, 50⟩, ⟨0, 0⟩, false⟩ 1).1.on_ground = true ∧
    (ball_collision_response ⟨false, true⟩ ⟨⟨0, 50⟩, ⟨0, 0⟩, false⟩ 1).2 = 0 :=
  spec_c4 ⟨⟨0, 50⟩, ⟨0, 0⟩, false⟩ 1 false (by norm_num [MAX_BALL_BOUNCES])

/-- C5: after any single resolver invocation — hence after every invocation of
every tick sequence, whatever the velocity and incoming remainder of the entity —
both components of `velocity_remainder` have absolute value below `1` (the
rounded integer step count is subtracted back out before stepping; a zero step
count means the remainder was already below `1/2`). -/
theorem spec_c5 (solids : List Rect) (pos : Vec2) (mov : Movement) (size : Vec2) :
    |(collision_system solids pos mov size).mov.velocity_remainder.x| < 1 ∧
    |(collision_system solids pos mov size).mov.velocity_remainder.y| < 1 := by
  constructor
  · have h := xPass_rem_abs solids size pos (remX0 mov)
    have hx : (collision_system solids pos mov size).mov.velocity_remainder.x
        = (xPass solids size pos (remX0 mov)).rem := rfl
    rw [hx]
    linarith
  · have h := yPass_rem_abs solids size (xPass solids size pos (remX0 mov)).pos
      (remY0 mov) mov.on_ground
    have hy : (collision_system solids pos mov size).mov.velocity_remainder.y
        = (yPass solids size (xPass solids size pos (remX0 mov)).pos (remY0 mov)
            mov.on_ground).rem := rfl
    rw [hy]
    linarith

/-- C6 counterexample: for a negative `maxDelta` the universal "for all
maxDelta" part fails: `approach 5 3 (-10) = 15`, which does not lie between `3`
and `5`. -/
theorem spec_c6_counterexample :
    approach 5 3 (-10) = 15 ∧
    ¬(3 ≤ approach 5 3 (-10) ∧ approach 5 3 (-10) ≤ 5) := by
  constructor
  · norm_num [approach]
  · norm_num [approach]

/-- C6 amended: for every nonnegative `maxDelta`, `approach` never overshoots —
the result lies between `v` and `target` inclusive — and `approach v v d = v`
for any `d ≥ 0`. -/
theorem spec_c6 (v target d : ℚ) (hd : 0 ≤ d) :
    min v target ≤ approach v target d ∧ approach v target d ≤ max v target ∧
    approach v v d = v := by
  unfold approach
  refine ⟨?_, ?_, ?_⟩
  · split
    · exact le_trans (min_le_right v target) (le_max_left _ _)
    · rename_i hvt
      exact le_trans (min_le_left v target) (le_min (by linarith) (by linarith))
  · split
    · rename_i hvt
      exact max_le (le_max_right v target) (le_trans (by linarith) (le_max_left v target))
    · exact le_trans (min_le_left _ _) (le_max_right _ _)
  · rw [if_neg (lt_irrefl v)]
    exact min_eq_left (by linarith)

/-- C6 witness: at `v = 1`, `target = 2`, `d = 3` the amended conclusions hold. -/
theorem spec_c6_witness :
    min (1 : ℚ) 2 ≤ approach 1 2 3 ∧ approach 1 2 3 ≤ max (1 : ℚ) 2 ∧
    approach 1 1 3 = 1 :=
  spec_c6 1 2 3 (by norm_num)

/-- C7: if at the start of an axis pass the rounded step count is nonzero and
the entity rectangle offset by one unit in the step direction (for X:
`translation + (sign, 0)`; for Y: `translation - (0, sign)`, the direction the
entity actually moves) already overlaps some solid, then the resolver commits
no translation on that axis this tick, and the emitted notification carries a
`true` flag for that axis.  The Y case starts from the position left by the X
pass, whose `y` component equals the initial one. -/
theorem spec_c7 (solids : List Rect) (pos : Vec2) (mov : Movement) (size : Vec2) :
    (roundQ (remX0 mov) ≠ 0 →
      anyCollide solids ⟨pos.x + ((signI (roundQ (remX0 mov)) : ℤ) : ℚ), pos.y⟩ size = true →
      (collision_system solids pos mov size).pos.x = pos.x ∧
      evCollidedX (collision_system solids pos mov size).ev = true) ∧
    (roundQ (remY0 mov) ≠ 0 →
      anyCollide solids
        ⟨(xPass solids size pos (remX0 mov)).pos.x,
          (xPass solids size pos (remX0 mov)).pos.y -
            ((signI (roundQ (remY0 mov)) : ℤ) : ℚ)⟩ size = true →
      (collision_system solids pos mov size).pos.y = pos.y ∧
      evCollidedY (collision_system solids pos mov size).ev = true) := by
  constructor
  · intro hx hcol
    obtain ⟨n, hn⟩ : ∃ n, (roundQ (remX0 mov)).natAbs = n + 1 := by
      have := Int.natAbs_pos.mpr hx
      exact ⟨(roundQ (remX0 mov)).natAbs - 1, by omega⟩
    have hxp : xPass solids size pos (remX0 mov) =
        ⟨pos, remX0 mov - (roundQ (remX0 mov) : ℚ), true⟩ := by
      simp only [xPass]
      rw [if_neg hx, hn, stepX_blocked solids size _ n pos hcol]
    constructor
    · have hpx : (collision_system solids pos mov size).pos.x =
          (yPass solids size (xPass solids size pos (remX0 mov)).pos (remY0 mov)
            mov.on_ground).pos.x := rfl
      rw [hpx, yPass_pos_x, hxp]
    · rw [evCollidedX_eq, hxp]
  · intro hy hcol
    obtain ⟨n, hn⟩ : ∃ n, (roundQ (remY0 mov)).natAbs = n + 1 := by
      have := Int.natAbs_pos.mpr hy
      exact ⟨(roundQ (remY0 mov)).natAbs - 1, by omega⟩
    have hyp : yPass solids size (xPass solids size pos (remX0 mov)).pos (remY0 mov)
        mov.on_ground =
        ⟨(xPass solids size pos (remX0 mov)).pos,
          remY0 mov - (roundQ (remY0 mov) : ℚ), true, true⟩ := by
      simp only [yPass]
      rw [if_neg hy, hn,
        stepY_blocked solids size _ n (xPass solids size pos (remX0 mov)).pos hcol]
    constructor
    · have hpy : (collision_system solids pos mov size).pos.y =
          (yPass solids size (xPass solids size pos (remX0 mov)).pos (remY0 mov)
            mov.on_ground).pos.y := rfl
      rw [hpy, hyp]
      exact xPass_pos_y solids size pos (remX0 mov)
    · rw [evCollidedY_eq, hyp]

/-- C7 witness: the X case at an entity one unit left of a wall moving right at
`60`, and the Y case at an entity one unit above the ground solid falling at
`60`; in both, one rounded step is requested and the first unit step is
blocked, so the translation on that axis is unchanged and the axis flag is
reported. -/
theorem spec_c7_witness :
    ((collision_system [⟨⟨9, 0⟩, ⟨4, 16⟩⟩] ⟨0, 0⟩
        ⟨⟨60, 0⟩, ⟨0, 0⟩, false⟩ ⟨16, 16⟩).pos.x = 0 ∧
      evCollidedX (collision_system [⟨⟨9, 0⟩, ⟨4, 16⟩⟩] ⟨0, 0⟩
        ⟨⟨60, 0⟩, ⟨0, 0⟩, false⟩ ⟨16, 16⟩).ev = true) ∧
    ((collision_system [⟨⟨0, -9⟩, ⟨100, 16⟩⟩] ⟨0, 0⟩
        ⟨⟨0, 60⟩, ⟨0, 0⟩, false⟩ ⟨16, 16⟩).pos.y = 0 ∧
      evCollidedY (collision_system [⟨⟨0, -9⟩, ⟨100, 16⟩⟩] ⟨0, 0⟩
        ⟨⟨0, 60⟩, ⟨0, 0⟩, false⟩ ⟨16, 16⟩).ev = true) :=
  ⟨(spec_c7 [⟨⟨9, 0⟩, ⟨4, 16⟩⟩] ⟨0, 0⟩ ⟨⟨60, 0⟩, ⟨0, 0⟩, false⟩ ⟨16, 16⟩).1
      (by norm_num [remX0, roundQ, TIME_STEP])
      (by norm_num [remX0, roundQ, signI, anyCollide, collide, TIME_STEP]),
   (spec_c7 [⟨⟨0, -9⟩, ⟨100, 16⟩⟩] ⟨0, 0⟩ ⟨⟨0, 60⟩, ⟨0, 0⟩, false⟩ ⟨16, 16⟩).2
      (by norm_num [remY0, roundQ, TIME_STEP])
      (by norm_num [xPass, remX0, remY0, roundQ, signI, anyCollide, collide, TIME_STEP])⟩

/-- C8: the singleton queries are fatal when violated — with zero or several
matching entities, the resolver (`single_mut`) and the ball integrator
(`get_single_mut().unwrap()`) abort (modelled as `none`) instead of
proceeding. -/
theorem spec_c8 (solids : List Rect) (qc : List EntityState) (qb : List Movement)
    (hc : qc.length ≠ 1) (hb : qb.length ≠ 1) :
    collision_system_run solids qc = none ∧ ball_movement_system_run qb = none := by
  constructor
  · cases qc with
    | nil => rfl
    | cons a t =>
      cases t with
      | nil => exact absurd rfl hc
      | cons b t2 => rfl
  · cases qb with
    | nil => rfl
    | cons a t =>
      cases t with
      | nil => exact absurd rfl hb
      | cons b t2 => rfl

/-- C8 witness: with no matching entity at all both systems abort. -/
theorem spec_c8_witness :
    collision_system_run [] [] = none ∧ ball_movement_system_run [] = none :=
  spec_c8 [] [] [] (by norm_num) (by norm_num)

/-- C9 (implicit): the resolver never moves an entity into overlap — every
one-unit translation is tested against the full solid set before being
committed, so an entity whose rectangle strictly overlaps no solid before the
invocation still overlaps none after it. -/
theorem spec_c9 (solids : List Rect) (pos : Vec2) (mov : Movement) (size : Vec2)
    (h : anyCollide solids pos size = false) :
    anyCollide solids (collision_system solids pos mov size).pos size = false := by
  have hx := xPass_no_overlap solids size pos (remX0 mov) h
  have hy := yPass_no_overlap solids size (xPass solids size pos (remX0 mov)).pos
    (remY0 mov) mov.on_ground hx
  exact hy

/-- C9 witness: an entity at the origin moving toward a non-overlapping solid
starts overlap-free and ends overlap-free. -/
theorem spec_c9_witness :
    anyCollide [⟨⟨30, 0⟩, ⟨10, 10⟩⟩]
      (collision_system [⟨⟨30, 0⟩, ⟨10, 10⟩⟩] ⟨0, 0⟩
        ⟨⟨60, 60⟩, ⟨0, 0⟩, false⟩ ⟨16, 16⟩).pos ⟨16, 16⟩ = false :=
  spec_c9 [⟨⟨30, 0⟩, ⟨10, 10⟩⟩] ⟨0, 0⟩ ⟨⟨60, 60⟩, ⟨0, 0⟩, false⟩ ⟨16, 16⟩
    (by norm_num [anyCollide, collide])

theorem ballTick_landed (solids : List Rect) (size : Vec2) (s : BallState)
    (hog : s.mov.on_ground = true) (hvy : s.mov.velocity.y = 0)
    (hrem : |s.mov.velocity_remainder.y| < 1 / 2) :
    (ballTick solids size s).mov.on_ground = true ∧
    (ballTick solids size s).mov.velocity.y = 0 ∧
    |(ballTick solids size s).mov.velocity_remainder.y| < 1 / 2 := by
  have h1 : ball_movement_system s.mov = s.mov := by
    simp [ball_movement_system, hog]
  have h2 : remY0 s.mov = s.mov.velocity_remainder.y := by
    simp [remY0, hvy]
  have h3 : roundQ (remY0 s.mov) = 0 := by
    rw [h2]
    exact roundQ_eq_zero _ hrem
  have h4 : yPass solids size (xPass solids size s.pos (remX0 s.mov)).pos
      (remY0 s.mov) s.mov.on_ground =
      ⟨(xPass solids size s.pos (remX0 s.mov)).pos, remY0 s.mov, false,
        s.mov.on_ground⟩ := by
    simp only [yPass]
    rw [if_pos h3]
  have hr : collision_system solids s.pos s.mov size =
      { pos := (xPass solids size s.pos (remX0 s.mov)).pos
        mov :=
          { velocity := s.mov.velocity
            velocity_remainder :=
              ⟨(xPass solids size s.pos (remX0 s.mov)).rem, remY0 s.mov⟩
            on_ground := s.mov.on_ground }
        ev :=
          if (xPass solids size s.pos (remX0 s.mov)).collided || false then
            some ⟨(xPass solids size s.pos (remX0 s.mov)).collided, false⟩
          else none } := by
    simp only [collision_system]
    rw [h4]
  simp only [ballTick]
  rw [h1, hr]
  cases hxc : (xPass solids size s.pos (remX0 s.mov)).collided <;>
    simp [hxc, ball_collision_response_system, ball_collision_response, hog, hvy, h2,
      hrem] <;>
    linarith [hrem]

/-- C10 (implicit): once the ball has landed — `on_ground = true`,
`velocity.y = 0`, `|velocity_remainder.y| < 1/2` — every subsequent tick of
the ball track (integrator, resolver, response) keeps `velocity.y = 0` and
`on_ground = true`: the integrator skips gravity because `on_ground` holds,
the rounded Y step count stays zero so the resolver never rewrites
`on_ground`, and with no Y collision the response never touches `velocity.y`. -/
theorem spec_c10 (solids : List Rect) (size : Vec2) (s : BallState)
    (hog : s.mov.on_ground = true) (hvy : s.mov.velocity.y = 0)
    (hrem : |s.mov.velocity_remainder.y| < 1 / 2) (n : ℕ) :
    ((ballTick solids size)^[n] s).mov.velocity.y = 0 ∧
    ((ballTick solids size)^[n] s).mov.on_ground = true := by
  have key : ∀ m : ℕ,
      ((ballTick solids size)^[m] s).mov.on_ground = true ∧
      ((ballTick solids size)^[m] s).mov.velocity.y = 0 ∧
      |((ballTick solids size)^[m] s).mov.velocity_remainder.y| < 1 / 2 := by
    intro m
    induction m with
    | zero => exact ⟨hog, hvy, hrem⟩
    | succ m ih =>
      rw [Function.iterate_succ_apply']
      exact ballTick_landed solids size _ ih.1 ih.2.1 ih.2.2
  exact ⟨(key n).2.1, (key n).1⟩

/-- C10 witness: a landed ball at rest still has `velocity.y = 0` and
`on_ground = true` two ticks later. -/
theorem spec_c10_witness :
    ((ballTick [⟨⟨0, -9⟩, ⟨100, 16⟩⟩] ⟨16, 16⟩)^[2]
        ⟨⟨0, 0⟩, ⟨⟨0, 0⟩, ⟨0, 1 / 4⟩, true⟩, 0⟩).mov.velocity.y = 0 ∧
    ((ballTick [⟨⟨0, -9⟩, ⟨100, 16⟩⟩] ⟨16, 16⟩)^[2]
        ⟨⟨0, 0⟩, ⟨⟨0, 0⟩, ⟨0, 1 / 4⟩, true⟩, 0⟩).mov.on_ground = true :=
  spec_c10 [⟨⟨0, -9⟩, ⟨100, 16⟩⟩] ⟨16, 16⟩ ⟨⟨0, 0⟩, ⟨⟨0, 0⟩, ⟨0, 1 / 4⟩, true⟩, 0⟩
    rfl rfl (by norm_num [abs_lt]) 2

end TP
